import Mathlib

/-!
Verification of the TRL_Reporter core against its specification.

The development shallowly embeds the core of the repository:

* `update_observation` (src/utils.py, lines 641-657): the ledger engine.
  A pandas `DataFrame` with columns `file_name, email, status` is embedded
  as a `List LedgerRecord`; `df[df['email'] == email]` + `.iloc[0]` is the
  first record whose email matches (`List.find?`); the in-place
  `df.loc[mask, [...]] = ...` assignment updates every matching row
  (`List.map` with a conditional update); `pd.concat` appends.
* `update_csv_from_df_retry` (src/utils.py, lines 399-469): the write path
  with conflict retry.  The remote Drive interaction is embedded as an
  oracle giving the outcome of each upload attempt; the function's control
  flow (the `while retry_count < max_retries ... else raise` loop, the
  `"conflict" in str(e).lower()` test, the `2 ** retry_count` waits) is
  translated directly.
* `read_csv_from_drive` (src/utils.py, lines 240-280): file lookup by
  title and CSV mime type, returning `None` when nothing matches.
* the upload handler of `TRL_Uploader - 2.py` (src/unnamed/part_000):
  artifact-name computation (`re.sub(r'[^a-zA-Z0-9]', '', email.split('@')[0])`,
  `f"{name}_{file.name}"`, `f"{final_filename}.txt"`) and the names it
  passes to `update_observation`, `upload_file` and `extract_text_and_upload`.
* the per-page column reconstruction inside `extract_text_and_upload`
  (src/utils.py, lines 552-592): sort blocks by y, cluster the x0
  coordinates (scipy `linkage(method='ward')` + `fcluster(t=50,
  criterion='distance')`), sort each column by y, order columns by mean x0,
  and flatten the texts.
-/

namespace TRLReporter

/-! ## Ledger data model -/

/-- One row of `workListFile.csv`: columns `file_name, email, status`
(status is the literal string `"Process"` or `"Ready"`). -/
structure LedgerRecord where
  file_name : String
  email : String
  status : String
deriving DecidableEq, Repr, Inhabited

/-- The in-memory ledger: the rows of the DataFrame, in order. -/
abbrev Ledger := List LedgerRecord

/-- Status message returned on the denial branch (utils.py line 647). -/
def DeniedMsg : String := "Negado: Servicio ya provisto."

/-- Status message returned on the overwrite branch (utils.py line 652). -/
def AcceptedOverwriteMsg : String := "Aceptado: Sobre-Escritura."

/-- Status message returned on the new-record branch (utils.py line 657). -/
def AcceptedNewMsg : String := "Aceptado: Nuevo Registro."

/-- Embedding of `update_observation(df, file_name, email)` from
src/utils.py lines 641-657.

`existing_record = df[df['email'] == email]` with
`existing_record['status'].iloc[0]` inspects the status of the *first*
row whose email matches, hence `List.find?`.  The overwrite branch
`df.loc[df['email'] == email, ['file_name', 'status']] = file_name, "Process"`
rewrites every matching row; the new-record branch appends one row. -/
def update_observation (df : Ledger) (file_name : String) (email : String) :
    String × Ledger :=
  match df.find? (fun r => r.email == email) with
  | some r =>
    if r.status == "Ready" then
      (DeniedMsg, df)
    else
      (AcceptedOverwriteMsg,
        df.map (fun r' =>
          if r'.email == email then
            { r' with file_name := file_name, status := "Process" }
          else r'))
  | none =>
      (AcceptedNewMsg, df ++ [⟨file_name, email, "Process"⟩])

/-- The uniqueness invariant of the data model: at most one ledger row per
distinct email (the list of emails has no duplicates). -/
def ledgerUnique (df : Ledger) : Prop := (df.map LedgerRecord.email).Nodup

instance : DecidablePred ledgerUnique := fun df =>
  inferInstanceAs (Decidable ((df.map LedgerRecord.email).Nodup))

/-- Number of ledger rows carrying a given email. -/
def countEmail (df : Ledger) (email : String) : Nat :=
  (df.filter (fun r => r.email == email)).length

/-! ### Helper lemmas about `update_observation` -/

/-- In a duplicate-free ledger, the first row found for an email is the
(unique) member row carrying that email. -/
theorem find?_eq_of_unique {df : Ledger} {r : LedgerRecord} {e : String}
    (hU : ledgerUnique df) (hr : r ∈ df) (he : r.email = e) :
    df.find? (fun r' => r'.email == e) = some r := by
  have hpr : (fun r' : LedgerRecord => r'.email == e) r = true := by
    simp [he]
  cases hfind : df.find? (fun r' => r'.email == e) with
  | none =>
      exact absurd hpr (List.find?_eq_none.mp hfind r hr)
  | some r'' =>
      have hmem : r'' ∈ df := List.mem_of_find?_eq_some hfind
      have hp : r''.email = e := by
        have := List.find?_some hfind
        simpa using this
      have : r'' = r :=
        List.inj_on_of_nodup_map hU hmem hr (by rw [hp, he])
      rw [this]

/-- If no row carries the email, `find?` fails. -/
theorem find?_eq_none_of_not_mem {df : Ledger} {e : String}
    (h : ∀ r ∈ df, r.email ≠ e) :
    df.find? (fun r' => r'.email == e) = none := by
  apply List.find?_eq_none.mpr
  intro r hr
  simp [h r hr]

/-- Reduction of `update_observation` on the overwrite branch. -/
theorem update_observation_overwrite_eq {df : Ledger} {e n : String}
    {r : LedgerRecord}
    (hfind : df.find? (fun r' => r'.email == e) = some r)
    (hs : r.status ≠ "Ready") :
    update_observation df n e
      = (AcceptedOverwriteMsg,
         df.map (fun r' =>
           if r'.email == e then
             { r' with file_name := n, status := "Process" }
           else r')) := by
  unfold update_observation
  rw [hfind]
  simp [hs]

/-! ## Claim theorems: ledger engine -/

/-- **C1.** If the (duplicate-free) ledger has a record for `e` with status
`Ready`, `update_observation` returns the Denied decision and the very same
ledger: no record added, removed or mutated. -/
theorem C1_ready_denied_no_mutation
    (df : Ledger) (e n : String) (r : LedgerRecord)
    (hU : ledgerUnique df) (hr : r ∈ df) (he : r.email = e)
    (hs : r.status = "Ready") :
    update_observation df n e = (DeniedMsg, df) := by
  unfold update_observation
  rw [find?_eq_of_unique hU hr he]
  simp [hs]

/-- Witness for C1 at a concrete ledger. -/
theorem C1_ready_denied_no_mutation_witness :
    update_observation [⟨"a.txt", "u@x.com", "Ready"⟩] "b.txt" "u@x.com"
      = (DeniedMsg, [⟨"a.txt", "u@x.com", "Ready"⟩]) :=
  C1_ready_denied_no_mutation _ _ _ ⟨"a.txt", "u@x.com", "Ready"⟩
    (by decide) (by decide) rfl rfl

/-- **C2.** If no record carries email `e`, `update_observation` returns the
AcceptedNew decision and appends exactly the record
`{file_name := n, email := e, status := "Process"}`, leaving every
pre-existing record unchanged (the result is literally `df ++ [new]`). -/
theorem C2_fresh_email_appends
    (df : Ledger) (e n : String)
    (h : ∀ r ∈ df, r.email ≠ e) :
    update_observation df n e = (AcceptedNewMsg, df ++ [⟨n, e, "Process"⟩])
      ∧ (update_observation df n e).2.length = df.length + 1 := by
  have hfind := find?_eq_none_of_not_mem h
  constructor
  · unfold update_observation
    rw [hfind]
  · unfold update_observation
    rw [hfind]
    simp

/-- Witness for C2 at a concrete ledger. -/
theorem C2_fresh_email_appends_witness :
    update_observation [⟨"a.txt", "u@x.com", "Ready"⟩] "b.txt" "v@y.org"
      = (AcceptedNewMsg,
          [⟨"a.txt", "u@x.com", "Ready"⟩, ⟨"b.txt", "v@y.org", "Process"⟩])
      ∧ (update_observation [⟨"a.txt", "u@x.com", "Ready"⟩] "b.txt" "v@y.org").2.length
          = [(⟨"a.txt", "u@x.com", "Ready"⟩ : LedgerRecord)].length + 1 :=
  C2_fresh_email_appends [⟨"a.txt", "u@x.com", "Ready"⟩] "v@y.org" "b.txt"
    (by decide)

/-- **C3.** If the (duplicate-free) ledger contains a record for `e` with
status `Process`, `update_observation` returns the AcceptedOverwrite
decision; exactly the matching record has its `file_name` replaced and its
status set to `Process`, every other record is unchanged, and the record
count is preserved. -/
theorem C3_process_overwrites_in_place
    (l₁ l₂ : Ledger) (e n : String) (r : LedgerRecord)
    (hU : ledgerUnique (l₁ ++ r :: l₂)) (he : r.email = e)
    (hs : r.status = "Process") :
    update_observation (l₁ ++ r :: l₂) n e
        = (AcceptedOverwriteMsg, l₁ ++ ⟨n, e, "Process"⟩ :: l₂)
      ∧ (update_observation (l₁ ++ r :: l₂) n e).2.length
          = (l₁ ++ r :: l₂).length := by
  have hr : r ∈ l₁ ++ r :: l₂ := by simp
  have hfind := find?_eq_of_unique hU hr he
  have hne₁ : ∀ x ∈ l₁, x.email ≠ e := by
    intro x hx hxe
    have hx' : x ∈ l₁ ++ r :: l₂ := by simp [hx]
    have : x = r := List.inj_on_of_nodup_map hU hx' hr (by rw [hxe, he])
    subst this
    have : (l₁ ++ x :: l₂).map LedgerRecord.email
        = l₁.map LedgerRecord.email ++ x.email :: l₂.map LedgerRecord.email := by
      simp
    rw [ledgerUnique, this] at hU
    have hdup := List.disjoint_of_nodup_append hU
    exact hdup (List.mem_map_of_mem LedgerRecord.email hx) (by simp)
  have hne₂ : ∀ x ∈ l₂, x.email ≠ e := by
    intro x hx hxe
    have hx' : x ∈ l₁ ++ r :: l₂ := by simp [hx]
    have : x = r := List.inj_on_of_nodup_map hU hx' hr (by rw [hxe, he])
    subst this
    have : (l₁ ++ x :: l₂).map LedgerRecord.email
        = l₁.map LedgerRecord.email ++ x.email :: l₂.map LedgerRecord.email := by
      simp
    rw [ledgerUnique, this] at hU
    have := (List.nodup_append.mp hU).2.1
    exact (List.nodup_cons.mp this).1 (List.mem_map_of_mem LedgerRecord.email hx)
  have hmain : update_observation (l₁ ++ r :: l₂) n e
      = (AcceptedOverwriteMsg, l₁ ++ ⟨n, e, "Process"⟩ :: l₂) := by
    rw [update_observation_overwrite_eq hfind (by rw [hs]; decide)]
    congr 1
    rw [List.map_append, List.map_cons]
    congr 1
    · apply List.map_congr_left ?_ |>.trans (List.map_id _)
      intro x hx
      simp [hne₁ x hx]
    · congr 1
      · simp [he]
      · apply List.map_congr_left ?_ |>.trans (List.map_id _)
        intro x hx
        simp [hne₂ x hx]
  exact ⟨hmain, by rw [hmain]; simp⟩

/-- Witness for C3 at a concrete ledger. -/
theorem C3_process_overwrites_in_place_witness :
    update_observation
        [⟨"z.txt", "w@z.io", "Ready"⟩, ⟨"a.txt", "u@x.com", "Process"⟩]
        "b.txt" "u@x.com"
      = (AcceptedOverwriteMsg,
          [⟨"z.txt", "w@z.io", "Ready"⟩, ⟨"b.txt", "u@x.com", "Process"⟩])
      ∧ (update_observation
          [⟨"z.txt", "w@z.io", "Ready"⟩, ⟨"a.txt", "u@x.com", "Process"⟩]
          "b.txt" "u@x.com").2.length
        = ([⟨"z.txt", "w@z.io", "Ready"⟩, ⟨"a.txt", "u@x.com", "Process"⟩] : Ledger).length :=
  C3_process_overwrites_in_place
    [⟨"z.txt", "w@z.io", "Ready"⟩] [] "u@x.com" "b.txt"
    ⟨"a.txt", "u@x.com", "Process"⟩ (by decide) rfl rfl

/-- Characterisation of the new-record branch: `update_observation` answers
`AcceptedNewMsg` exactly when no row carries the email, and the output ledger
is then the input with the new row appended. -/
theorem update_observation_accepted_new_iff {df : Ledger} {e n : String}
    {df' : Ledger}
    (h : update_observation df n e = (AcceptedNewMsg, df')) :
    df.find? (fun r => r.email == e) = none
      ∧ df' = df ++ [⟨n, e, "Process"⟩] := by
  unfold update_observation at h
  cases hfind : df.find? (fun r => r.email == e) with
  | none =>
      rw [hfind] at h
      have h1 : ((AcceptedNewMsg, df ++ [⟨n, e, "Process"⟩]) : String × Ledger)
          = (AcceptedNewMsg, df') := h
      exact ⟨rfl, (congrArg Prod.snd h1).symm⟩
  | some r =>
      rw [hfind] at h
      have h1 : (if (r.status == "Ready") = true then (DeniedMsg, df)
          else (AcceptedOverwriteMsg,
            df.map (fun r' =>
              if r'.email == e then
                { r' with file_name := n, status := "Process" }
              else r'))) = (AcceptedNewMsg, df') := h
      by_cases hs : (r.status == "Ready") = true
      · rw [if_pos hs] at h1
        have h2 : DeniedMsg = AcceptedNewMsg := congrArg Prod.fst h1
        exact absurd h2 (by decide)
      · rw [if_neg hs] at h1
        have h2 : AcceptedOverwriteMsg = AcceptedNewMsg := congrArg Prod.fst h1
        exact absurd h2 (by decide)

/-- **C4.** If a first application of `update_observation` returns
AcceptedNew with ledger `df'`, a second application with the same email and
file name returns AcceptedOverwrite (not AcceptedNew), preserves the record
count, and the number of records for the email is at most one after each of
the two applications. -/
theorem C4_second_application_overwrites
    (df : Ledger) (e n : String) (df' : Ledger)
    (h : update_observation df n e = (AcceptedNewMsg, df')) :
    (update_observation df' n e).1 = AcceptedOverwriteMsg
      ∧ (update_observation df' n e).2.length = df'.length
      ∧ countEmail df' e ≤ 1
      ∧ countEmail (update_observation df' n e).2 e ≤ 1 := by
  obtain ⟨hfind, hdf'⟩ := update_observation_accepted_new_iff h
  have hnot : ∀ r ∈ df, r.email ≠ e := by
    intro r hr hre
    exact absurd (by simp [hre]) (List.find?_eq_none.mp hfind r hr)
  subst hdf'
  have hfind' : List.find? (fun r => r.email == e)
        (df ++ [(⟨n, e, "Process"⟩ : LedgerRecord)])
      = some ⟨n, e, "Process"⟩ := by
    rw [List.find?_append, find?_eq_none_of_not_mem hnot]
    simp
  have hover := @update_observation_overwrite_eq
    (df ++ [⟨n, e, "Process"⟩]) e n ⟨n, e, "Process"⟩ hfind'
    (show ("Process" : String) ≠ "Ready" by decide)
  have hmap : (df ++ [(⟨n, e, "Process"⟩ : LedgerRecord)]).map
      (fun r' : LedgerRecord =>
        if r'.email == e then
          { r' with file_name := n, status := "Process" }
        else r') = df ++ [⟨n, e, "Process"⟩] := by
    rw [List.map_append]
    congr 1
    · apply List.map_congr_left ?_ |>.trans (List.map_id _)
      intro x hx
      simp [hnot x hx]
    · simp
  rw [hover, hmap]
  have hcount : countEmail (df ++ [⟨n, e, "Process"⟩]) e = 1 := by
    rw [countEmail, List.filter_append]
    have : df.filter (fun r => r.email == e) = [] := by
      apply List.filter_eq_nil_iff.mpr
      intro r hr
      simp [hnot r hr]
    rw [this]
    simp
  exact ⟨rfl, rfl, le_of_eq hcount, le_of_eq hcount⟩

/-- Witness for C4 at a concrete ledger. -/
theorem C4_second_application_overwrites_witness :
    (update_observation [⟨"b.txt", "v@y.org", "Process"⟩] "b.txt" "v@y.org").1
        = AcceptedOverwriteMsg
      ∧ (update_observation [⟨"b.txt", "v@y.org", "Process"⟩] "b.txt" "v@y.org").2.length
        = ([⟨"b.txt", "v@y.org", "Process"⟩] : Ledger).length
      ∧ countEmail [⟨"b.txt", "v@y.org", "Process"⟩] "v@y.org" ≤ 1
      ∧ countEmail
          (update_observation [⟨"b.txt", "v@y.org", "Process"⟩] "b.txt" "v@y.org").2
          "v@y.org" ≤ 1 :=
  C4_second_application_overwrites [] "v@y.org" "b.txt"
    [⟨"b.txt", "v@y.org", "Process"⟩] rfl

/-- **C5.** `update_observation` preserves the at-most-one-record-per-email
invariant, whichever of the three branches is taken. -/
theorem C5_uniqueness_preserved
    (df : Ledger) (e n : String) (hU : ledgerUnique df) :
    ledgerUnique (update_observation df n e).2 := by
  unfold update_observation
  cases hfind : df.find? (fun r => r.email == e) with
  | none =>
      have hnot : ∀ r ∈ df, r.email ≠ e := by
        intro r hr hre
        exact absurd (by simp [hre]) (List.find?_eq_none.mp hfind r hr)
      simp only [ledgerUnique, List.map_append, List.map_cons, List.map_nil]
      rw [List.nodup_append]
      refine ⟨hU, List.nodup_singleton _, ?_⟩
      intro a ha hb
      simp only [List.mem_singleton] at hb
      subst hb
      obtain ⟨r, hr, hre⟩ := List.mem_map.mp ha
      exact hnot r hr hre
  | some r =>
      by_cases hs : (r.status == "Ready") = true
      · simpa [hs] using hU
      · have hemail : ((df.map (fun r' =>
            if r'.email == e then
              { r' with file_name := n, status := "Process" }
            else r')).map LedgerRecord.email) = df.map LedgerRecord.email := by
          rw [List.map_map]
          apply List.map_congr_left
          intro x hx
          by_cases hxe : (x.email == e) = true
          · simp [Function.comp, hxe]
          · simp [Function.comp, hxe]
        simp only [hs, if_false, Bool.false_eq_true, ledgerUnique]
        rw [hemail]
        exact hU

/-- Witness for C5 at a concrete ledger. -/
theorem C5_uniqueness_preserved_witness :
    ledgerUnique (update_observation
      [⟨"a.txt", "u@x.com", "Process"⟩, ⟨"c.txt", "w@z.io", "Ready"⟩]
      "b.txt" "u@x.com").2 :=
  C5_uniqueness_preserved
    [⟨"a.txt", "u@x.com", "Process"⟩, ⟨"c.txt", "w@z.io", "Ready"⟩]
    "u@x.com" "b.txt" (by decide)

/-! ## RemoteStore: `update_csv_from_df_retry` (src/utils.py lines 399-469)

The Google Drive side is embedded as an oracle: `updateOutcomes k` is the
outcome of the `k`-th `file.SetContentFile / file.Upload` attempt on an
existing file (0-based, `k` is the value of `retry_count` when the attempt
is made), and `createOutcome` is the outcome of the single
`CreateFile / Upload` call on the path where no file exists yet. -/

/-- Outcome of one remote upload attempt: success, or an exception whose
message is `msg` (the Python `str(e)`). -/
inductive AttemptOutcome where
  | success : AttemptOutcome
  | failure : String → AttemptOutcome
deriving DecidableEq, Repr

/-- Python's substring containment `pat in s`. -/
def strContains (s pat : String) : Bool :=
  s.toList.tails.any (fun t => pat.toList.isPrefixOf t)

/-- Python's `str.lower()` restricted to ASCII, as a character-list map
(the conflict marker the code looks for is plain ASCII). -/
def lowerAscii (s : String) : String :=
  String.mk (s.toList.map Char.toLower)

/-- The conflict test of utils.py line 439: `"conflict" in str(e).lower()`. -/
def isConflictError (msg : String) : Bool :=
  strContains (lowerAscii msg) "conflict"

/-- Boolean: the outcome is an exception recognised as a conflict. -/
def isConflictFailure : AttemptOutcome → Bool
  | AttemptOutcome.success => false
  | AttemptOutcome.failure msg => isConflictError msg

/-- What `update_csv_from_df_retry` does, as seen by its caller. -/
inductive RunResult where
  | ok : RunResult
  | maxRetriesError : RunResult
  | raised : String → RunResult
deriving DecidableEq, Repr

/-- The `while retry_count < max_retries: ... else: raise` loop of
utils.py lines 431-449, started at `retry_count = k` with
`maxRetries - k = fuel` iterations allowed.  Returns the list of backoff
waits performed (`2 ** retry_count` after each increment, line 441) and the
final result.  A conflict increments the counter, sleeps `2 ^ (k+1)`,
refreshes metadata and retries; a non-conflict exception is re-raised at
once; exhausting the counter runs the `else` clause, raising the
max-retries exception. -/
def retryLoopAux (outcomes : Nat → AttemptOutcome) :
    Nat → Nat → List Nat × RunResult
  | _, 0 => ([], RunResult.maxRetriesError)
  | k, fuel + 1 =>
    match outcomes k with
    | AttemptOutcome.success => ([], RunResult.ok)
    | AttemptOutcome.failure msg =>
      if isConflictError msg then
        let rest := retryLoopAux outcomes (k + 1) fuel
        (2 ^ (k + 1) :: rest.1, rest.2)
      else ([], RunResult.raised msg)

/-- The retry loop as entered by the code: `retry_count = 0`,
`max_retries = 3`. -/
def retryLoop (outcomes : Nat → AttemptOutcome) (maxRetries : Nat) :
    List Nat × RunResult :=
  retryLoopAux outcomes 0 maxRetries

/-- The remote state `update_csv_from_df_retry` runs against. -/
structure DriveState where
  fileExists : Bool
  updateOutcomes : Nat → AttemptOutcome
  createOutcome : AttemptOutcome

/-- Embedding of `update_csv_from_df_retry` (utils.py lines 399-469): if a
file with the target name exists in the folder, its content is updated under
the 3-attempt conflict-retry loop; otherwise a fresh file is created by a
single unprotected upload call whose exception, if any, propagates. -/
def update_csv_from_df_retry (st : DriveState) : List Nat × RunResult :=
  if st.fileExists then retryLoop st.updateOutcomes 3
  else
    match st.createOutcome with
    | AttemptOutcome.success => ([], RunResult.ok)
    | AttemptOutcome.failure msg => ([], RunResult.raised msg)

/-- **C7.** With the attempt budget of 3 on an existing destination file:
conflicts on every attempt produce exactly the three exponential backoff
waits `2^1, 2^2, 2^3` and then the max-retries error; a conflict on the
first attempt followed by a success, or conflicts on the first two attempts
followed by a success, raise nothing. -/
theorem C7_retry_budget
    (s₁ s₂ s₃ : DriveState)
    (h₁e : s₁.fileExists = true)
    (h₁ : ∀ k, k < 3 → isConflictFailure (s₁.updateOutcomes k) = true)
    (h₂e : s₂.fileExists = true)
    (h₂ : isConflictFailure (s₂.updateOutcomes 0) = true)
    (h₂s : s₂.updateOutcomes 1 = AttemptOutcome.success)
    (h₃e : s₃.fileExists = true)
    (h₃ : isConflictFailure (s₃.updateOutcomes 0) = true)
    (h₃' : isConflictFailure (s₃.updateOutcomes 1) = true)
    (h₃s : s₃.updateOutcomes 2 = AttemptOutcome.success) :
    update_csv_from_df_retry s₁ = ([2, 4, 8], RunResult.maxRetriesError)
      ∧ (update_csv_from_df_retry s₂).2 = RunResult.ok
      ∧ (update_csv_from_df_retry s₃).2 = RunResult.ok := by
  have conflictCase :
      ∀ (o : Nat → AttemptOutcome) (k : Nat),
        isConflictFailure (o k) = true →
        ∃ msg, o k = AttemptOutcome.failure msg ∧ isConflictError msg = true := by
    intro o k hk
    cases ho : o k with
    | success => rw [ho] at hk; exact absurd hk (by decide)
    | failure msg =>
        rw [ho] at hk
        exact ⟨msg, rfl, hk⟩
  refine ⟨?_, ?_, ?_⟩
  · obtain ⟨m0, hm0, hc0⟩ := conflictCase s₁.updateOutcomes 0 (h₁ 0 (by decide))
    obtain ⟨m1, hm1, hc1⟩ := conflictCase s₁.updateOutcomes 1 (h₁ 1 (by decide))
    obtain ⟨m2, hm2, hc2⟩ := conflictCase s₁.updateOutcomes 2 (h₁ 2 (by decide))
    simp only [update_csv_from_df_retry, h₁e, if_true, retryLoop, retryLoopAux,
      hm0, hm1, hm2, hc0, hc1, hc2, if_pos]
    rfl
  · obtain ⟨m0, hm0, hc0⟩ := conflictCase s₂.updateOutcomes 0 h₂
    simp only [update_csv_from_df_retry, h₂e, if_true, retryLoop, retryLoopAux,
      hm0, hc0, h₂s, if_pos]
  · obtain ⟨m0, hm0, hc0⟩ := conflictCase s₃.updateOutcomes 0 h₃
    obtain ⟨m1, hm1, hc1⟩ := conflictCase s₃.updateOutcomes 1 h₃'
    simp only [update_csv_from_df_retry, h₃e, if_true, retryLoop, retryLoopAux,
      hm0, hc0, hm1, hc1, h₃s, if_pos]

/-- Witness for C7 at concrete drive states ("409 conflict detected" is a
conflict message, since lowering it contains `"conflict"`). -/
theorem C7_retry_budget_witness :
    update_csv_from_df_retry
        ⟨true, fun _ => AttemptOutcome.failure "409 Conflict detected",
          AttemptOutcome.success⟩
      = ([2, 4, 8], RunResult.maxRetriesError)
      ∧ (update_csv_from_df_retry
          ⟨true,
            fun k => if k = 0 then AttemptOutcome.failure "409 Conflict detected"
              else AttemptOutcome.success,
            AttemptOutcome.success⟩).2 = RunResult.ok
      ∧ (update_csv_from_df_retry
          ⟨true,
            fun k => if k ≤ 1 then AttemptOutcome.failure "409 Conflict detected"
              else AttemptOutcome.success,
            AttemptOutcome.success⟩).2 = RunResult.ok :=
  C7_retry_budget _ _ _ rfl (by decide) rfl (by decide) rfl rfl (by decide)
    (by decide) rfl

/-- Non-conflict exceptions abort the retry loop at once: if the first `j`
attempts fail with conflict messages and attempt `j` (still within the
budget) fails with a non-conflict message, the loop re-raises that message
after exactly the `j` earlier backoff waits, with no further wait. -/
theorem retryLoopAux_nonconflict (o : Nat → AttemptOutcome) (msg : String) :
    ∀ (j k fuel : Nat), j < fuel →
      (∀ i, i < j → isConflictFailure (o (k + i)) = true) →
      o (k + j) = AttemptOutcome.failure msg →
      isConflictError msg = false →
      retryLoopAux o k fuel
        = ((List.range j).map (fun i => 2 ^ (k + i + 1)),
            RunResult.raised msg) := by
  intro j
  induction j with
  | zero =>
      intro k fuel hfuel _ hj hnc
      cases fuel with
      | zero => omega
      | succ f =>
          rw [Nat.add_zero] at hj
          simp [retryLoopAux, hj, hnc]
  | succ j ih =>
      intro k fuel hfuel hconf hj hnc
      cases fuel with
      | zero => omega
      | succ f =>
          have h0 : isConflictFailure (o k) = true := by
            have := hconf 0 (Nat.succ_pos j)
            rwa [Nat.add_zero] at this
          obtain ⟨m, hm, hc⟩ :
              ∃ m, o k = AttemptOutcome.failure m ∧ isConflictError m = true := by
            cases ho : o k with
            | success => rw [ho] at h0; exact absurd h0 (by decide)
            | failure m => rw [ho] at h0; exact ⟨m, rfl, h0⟩
          have hrest := ih (k + 1) f (by omega)
            (fun i hi => by
              have := hconf (i + 1) (by omega)
              rwa [show k + (i + 1) = k + 1 + i by omega] at this)
            (by rwa [show k + 1 + j = k + (j + 1) by omega])
            hnc
          simp only [retryLoopAux, hm, hc, if_pos, hrest]
          rw [List.range_succ_eq_map, List.map_cons, List.map_map]
          refine congrArg₂ Prod.mk (congrArg₂ List.cons ?_ ?_) rfl
          · exact congrArg (fun t => 2 ^ t) (by omega)
          · apply List.map_congr_left
            intro i _
            exact congrArg (fun t => 2 ^ t) (by omega)

/-- **C10.** The function retries only on the update-of-an-existing-file
path and only for exceptions whose message contains `"conflict"`
case-insensitively: a non-conflict exception at any attempt is re-raised
with no further backoff wait, and on the creation path (no existing file)
every exception propagates with no wait and no retry. -/
theorem C10_retry_only_on_conflict :
    (∀ (st : DriveState) (j : Nat) (msg : String),
       st.fileExists = true → j < 3 →
       (∀ i, i < j → isConflictFailure (st.updateOutcomes i) = true) →
       st.updateOutcomes j = AttemptOutcome.failure msg →
       isConflictError msg = false →
       update_csv_from_df_retry st
         = ((List.range j).map (fun i => 2 ^ (i + 1)), RunResult.raised msg))
    ∧ (∀ (st : DriveState) (msg : String),
       st.fileExists = false →
       st.createOutcome = AttemptOutcome.failure msg →
       update_csv_from_df_retry st = ([], RunResult.raised msg)) := by
  constructor
  · intro st j msg he hj hconf hfail hnc
    have h := retryLoopAux_nonconflict st.updateOutcomes msg j 0 3 hj
      (fun i hi => by simpa using hconf i hi) (by simpa using hfail) hnc
    rw [update_csv_from_df_retry, he, if_pos rfl, retryLoop, h]
    refine congrArg₂ Prod.mk ?_ rfl
    apply List.map_congr_left
    intro i _
    congr 1
    omega
  · intro st msg he hc
    rw [update_csv_from_df_retry, he]
    simp [hc]

/-- Witness for C10: a rate-limit error after one conflict propagates with
a single wait; a conflict-worded error on the creation path propagates with
no wait at all. -/
theorem C10_retry_only_on_conflict_witness :
    update_csv_from_df_retry
        ⟨true,
          (fun k => if k = 0 then AttemptOutcome.failure "409 Conflict detected"
            else AttemptOutcome.failure "userRateLimitExceeded"),
          AttemptOutcome.success⟩
      = ([2], RunResult.raised "userRateLimitExceeded")
    ∧ update_csv_from_df_retry
        ⟨false, (fun _ => AttemptOutcome.success),
          AttemptOutcome.failure "409 Conflict detected"⟩
      = ([], RunResult.raised "409 Conflict detected") := by
  constructor
  · have h := C10_retry_only_on_conflict.1
      ⟨true,
        (fun k => if k = 0 then AttemptOutcome.failure "409 Conflict detected"
          else AttemptOutcome.failure "userRateLimitExceeded"),
        AttemptOutcome.success⟩
      1 "userRateLimitExceeded" rfl (by decide) (by decide) (by decide)
      (by decide)
    exact h.trans (by decide)
  · exact C10_retry_only_on_conflict.2
      ⟨false, (fun _ => AttemptOutcome.success),
        AttemptOutcome.failure "409 Conflict detected"⟩
      "409 Conflict detected" rfl rfl

/-! ## RemoteStore: `read_csv_from_drive` (src/utils.py lines 240-280) and
the handler's consumption of its result -/

/-- A file as listed by the Drive folder query, with its parsed CSV rows
(the parse itself, `pd.read_csv`, is an external collaborator and is
embedded as the already-parsed rows). -/
structure DriveFile where
  title : String
  mimeType : String
  rows : Ledger
deriving DecidableEq, Repr

/-- Embedding of `read_csv_from_drive(file_name, folder_id)`: list the
folder; if the listing is empty, log and return `None`; otherwise scan for
the first file whose title matches and whose mime type is in the CSV
family, returning `None` when no file matches and the parsed DataFrame
otherwise. -/
def read_csv_from_drive (file_list : List DriveFile) (file_name : String) :
    Option Ledger :=
  if file_list.isEmpty then none
  else
    match file_list.find? (fun f =>
        f.title == file_name
          && (f.mimeType == "text/csv"
              || f.mimeType == "application/vnd.ms-excel")) with
    | none => none
    | some f => some f.rows

/-- The upload handlers call
`update_observation(workListFile, txt_filename, email)` directly on the
value returned by `read_csv_from_drive` (src/TRL_Uploader.py line 68,
src/unnamed/part_000 lines 99/133).  When that value is `None`, pandas
raises a `TypeError` inside the subscript `df['email']`; the embedding
surfaces it as an `Except.error`. -/
def update_observation_py (df : Option Ledger) (file_name : String)
    (email : String) : Except String (String × Ledger) :=
  match df with
  | none =>
      Except.error "TypeError: 'NoneType' object is not subscriptable"
  | some l => Except.ok (update_observation l file_name email)

/-- **C8 counterexample.** In a folder with no `workListFile.csv`,
`read_csv_from_drive` does return the explicit not-found signal `none`
(first half of the claim), but the ingestion workflow does *not* proceed as
if the ledger were empty: feeding the `none` result to the ledger update
raises a `TypeError`, so a first submission is rejected rather than
accepted. -/
theorem C8_absent_ledger_counterexample :
    read_csv_from_drive [⟨"other.txt", "text/plain", []⟩] "workListFile.csv"
        = none
      ∧ update_observation_py
          (read_csv_from_drive [⟨"other.txt", "text/plain", []⟩]
            "workListFile.csv")
          "janedoe_report.pdf.txt" "jane.doe@x.com"
        = Except.error "TypeError: 'NoneType' object is not subscriptable"
      ∧ ∀ df', update_observation_py
          (read_csv_from_drive [⟨"other.txt", "text/plain", []⟩]
            "workListFile.csv")
          "janedoe_report.pdf.txt" "jane.doe@x.com"
        ≠ Except.ok (AcceptedNewMsg, df') := by
  refine ⟨rfl, rfl, ?_⟩
  intro df' h
  have herr : update_observation_py
      (read_csv_from_drive [⟨"other.txt", "text/plain", []⟩]
        "workListFile.csv")
      "janedoe_report.pdf.txt" "jane.doe@x.com"
    = Except.error "TypeError: 'NoneType' object is not subscriptable" := rfl
  rw [herr] at h
  exact Except.noConfusion h

/-- **C8 amended.** When no file in the folder carries the ledger's name,
`read_csv_from_drive` returns `none` rather than throwing; but the workflow
then fails — the ledger-update step applied to `none` raises a `TypeError`
(surfaced to the user as an upload error), so the absence of the ledger
file is an error for the workflow and a first submission is not accepted. -/
theorem C8_absent_ledger_is_error
    (file_list : List DriveFile) (file_name : String)
    (habsent : ∀ f ∈ file_list, f.title ≠ file_name) :
    read_csv_from_drive file_list file_name = none
      ∧ ∀ n e, update_observation_py
          (read_csv_from_drive file_list file_name) n e
        = Except.error "TypeError: 'NoneType' object is not subscriptable" := by
  have hread : read_csv_from_drive file_list file_name = none := by
    unfold read_csv_from_drive
    by_cases hemp : file_list.isEmpty
    · rw [if_pos hemp]
    · rw [if_neg hemp]
      have hfind : file_list.find? (fun f =>
          f.title == file_name
            && (f.mimeType == "text/csv"
                || f.mimeType == "application/vnd.ms-excel")) = none := by
        apply List.find?_eq_none.mpr
        intro f hf
        simp [habsent f hf]
      rw [hfind]
  exact ⟨hread, fun n e => by rw [hread]; rfl⟩

/-- Witness for the amended C8 at a concrete folder. -/
theorem C8_absent_ledger_is_error_witness :
    read_csv_from_drive [⟨"report.pdf", "application/pdf", []⟩]
        "workListFile.csv" = none
      ∧ ∀ n e, update_observation_py
          (read_csv_from_drive [⟨"report.pdf", "application/pdf", []⟩]
            "workListFile.csv") n e
        = Except.error "TypeError: 'NoneType' object is not subscriptable" :=
  C8_absent_ledger_is_error [⟨"report.pdf", "application/pdf", []⟩]
    "workListFile.csv" (by decide)

/-! ## Artifact naming in the upload handler (src/unnamed/part_000) -/

/-- `email.split('@')[0]`: the characters before the first `'@'` (the whole
string when there is none), i.e. the email's local part. -/
def local_part (email : String) : String :=
  String.mk (email.toList.takeWhile (fun c => c != '@'))

/-- `re.sub(r'[^a-zA-Z0-9]', '', email.split('@')[0])`: the email's local
part with every character outside `[A-Za-z0-9]` removed
(src/unnamed/part_000 line 95). -/
def sanitized_local_part (email : String) : String :=
  String.mk ((local_part email).toList.filter Char.isAlphanum)

/-- `final_filename = f"{name}_{file.name}"` (src/unnamed/part_000
line 130). -/
def final_filename (email : String) (origName : String) : String :=
  sanitized_local_part email ++ "_" ++ origName

/-- `txt_filename = f"{final_filename}.txt"` (src/unnamed/part_000
line 131). -/
def txt_filename (email : String) (origName : String) : String :=
  final_filename email origName ++ ".txt"

/-- The three names the per-file loop of the handler actually uses. -/
structure FileNames where
  ledgerFileName : String
  pdfUploadName : String
  textUploadName : String
deriving DecidableEq, Repr

/-- The names used by the per-file loop of src/unnamed/part_000 lines
125-141: `update_observation` receives `txt_filename`; `upload_file`
receives `final_filename`; `extract_text_and_upload` also receives
`final_filename` (not `txt_filename`). -/
def handler_file_names (email : String) (origName : String) : FileNames :=
  { ledgerFileName := txt_filename email origName
  , pdfUploadName := final_filename email origName
  , textUploadName := final_filename email origName }

/-- **C9.** At the spec's end-to-end input (`jane.doe@x.com`, `report.pdf`)
the name recorded in the ledger is `janedoe_report.pdf.txt` as claimed, but
the name under which the text artifact is stored is `janedoe_report.pdf`:
the handler passes `final_filename` instead of `txt_filename` to
`extract_text_and_upload`, so the stored text file's name differs from the
ledger entry. -/
theorem C9_artifact_name_mismatch :
    handler_file_names "jane.doe@x.com" "report.pdf"
        = ⟨"janedoe_report.pdf.txt", "janedoe_report.pdf", "janedoe_report.pdf"⟩
      ∧ (handler_file_names "jane.doe@x.com" "report.pdf").textUploadName
        ≠ (handler_file_names "jane.doe@x.com" "report.pdf").ledgerFileName := by
  exact ⟨by decide, by decide⟩


/-! ## ColumnReconstructor: per-page block ordering inside
`extract_text_and_upload` (src/utils.py lines 552-592)

The page's raw blocks `(x0, y0, x1, y1, text)` are sorted by `y0`; the
`x0` coordinates are clustered into columns with scipy
`linkage(method='ward')` cut by `fcluster(t=50, criterion='distance')`;
each column is sorted top-to-bottom and columns are ordered left-to-right
by their mean `x0`; the texts are then flattened in that order.

Modelling the scipy pair: Ward linkage heights are monotone non-decreasing
along the dendrogram (Ward satisfies the Lance-Williams reducibility
condition), so the flat clusters produced by `fcluster` at threshold `t`
are exactly the clusters obtained by greedily merging a minimal-Ward-
distance pair while that minimal distance is at most `t`.  The Ward
distance of clusters `a`, `b` is
`sqrt(2 |a| |b| / (|a| + |b|)) * |mean a - mean b|` (for two singletons,
the plain distance); squaring, all quantities are exact rationals, which we
carry as explicit integer fractions (`Frac`) so that every comparison
reduces; distances are compared squared, against `t^2 = 2500`. -/

/-- An exact rational `num / den` with `den > 0` by construction: the
real-valued geometry of the reconstruction, carried out exactly. -/
structure Frac where
  num : Int
  den : Int
deriving DecidableEq, Repr

/-- `a - b` on fractions. -/
def Frac.sub (a b : Frac) : Frac :=
  ⟨a.num * b.den - b.num * a.den, a.den * b.den⟩

/-- `a * b` on fractions. -/
def Frac.mul (a b : Frac) : Frac :=
  ⟨a.num * b.num, a.den * b.den⟩

/-- `a ≤ b` on fractions (valid as the denominators are positive). -/
def Frac.le (a b : Frac) : Bool :=
  decide (a.num * b.den ≤ b.num * a.den)

/-- `a < b` on fractions (valid as the denominators are positive). -/
def Frac.lt (a b : Frac) : Bool :=
  decide (a.num * b.den < b.num * a.den)

/-- One PDF text block as returned by `page.get_text("blocks")`: bounding
box and text; the code uses `b[0]` (x0), `b[1]` (y0) and `b[4]` (text).
The claim's coordinates are integers, so coordinates are carried as `Int`
(means of coordinates become `Frac`). -/
structure TextBlock where
  x0 : Int
  y0 : Int
  x1 : Int
  y1 : Int
  text : String
deriving DecidableEq, Inhabited, Repr

/-- Stable insertion of `a` into a sorted list: `a` goes before the first
element `b` with `le a b`. -/
def insertSorted (le : α → α → Bool) (a : α) : List α → List α
  | [] => [a]
  | b :: l => if le a b then a :: b :: l else b :: insertSorted le a l

/-- Python's stable `sorted` (with `le` the `key`-induced comparison):
elements with equal keys keep their original relative order. -/
def pySorted (le : α → α → Bool) : List α → List α
  | [] => []
  | a :: l => insertSorted le a (pySorted le l)

/-- Mean of the observations of a cluster (given by indices into `xs`). -/
def clusterMean (xs : List Int) (c : List Nat) : Frac :=
  ⟨(c.map (fun i => xs.getD i 0)).sum, (c.length : Int)⟩

/-- Squared Ward linkage distance between two clusters of 1-D
observations: `2 |a| |b| / (|a| + |b|) * (mean a - mean b)^2`. -/
def wardSq (xs : List Int) (a b : List Nat) : Frac :=
  Frac.mul ⟨2 * (a.length : Int) * (b.length : Int),
            (a.length : Int) + (b.length : Int)⟩
    (Frac.mul (Frac.sub (clusterMean xs a) (clusterMean xs b))
      (Frac.sub (clusterMean xs a) (clusterMean xs b)))

/-- All index pairs `(i, j)` with `i < j < n`. -/
def pairsBelow (n : Nat) : List (Nat × Nat) :=
  (List.range n).flatMap (fun j => (List.range j).map (fun i => (i, j)))

/-- The pair of current clusters at minimal squared Ward distance (the
first such pair in scan order), with that distance. -/
def minWardPair (xs : List Int) (cs : List (List Nat)) :
    Option (Nat × Nat × Frac) :=
  (pairsBelow cs.length).foldl
    (fun acc p =>
      let d := wardSq xs (cs.getD p.1 []) (cs.getD p.2 [])
      match acc with
      | none => some (p.1, p.2, d)
      | some (i, j, dmin) =>
          if Frac.lt d dmin then some (p.1, p.2, d) else some (i, j, dmin))
    none

/-- One agglomerative step: merge the minimal-distance pair if its squared
distance is within the squared threshold, else stop. -/
def mergeStep (xs : List Int) (tSq : Frac) (cs : List (List Nat)) :
    Option (List (List Nat)) :=
  match minWardPair xs cs with
  | none => none
  | some (i, j, d) =>
    if Frac.le d tSq then
      some ((cs.getD i [] ++ cs.getD j [])
        :: ((List.range cs.length).filter (fun k => k != i && k != j)).map
            (fun k => cs.getD k []))
    else none

/-- Run agglomerative steps until no merge is allowed (fuel-bounded: at
most `n - 1` merges can ever happen, so fuel `n` suffices). -/
def agglomerate (xs : List Int) (tSq : Frac) :
    Nat → List (List Nat) → List (List Nat)
  | 0, cs => cs
  | fuel + 1, cs =>
    match mergeStep xs tSq cs with
    | none => cs
    | some cs' => agglomerate xs tSq fuel cs'

/-- Flat Ward clusters of the observations `xs` at squared distance
threshold `tSq`: the embedding of
`fcluster(linkage(xs, method='ward'), t, criterion='distance')`, returned
as a partition of the observation indices. -/
def wardFlatClusters (xs : List Int) (tSq : Frac) : List (List Nat) :=
  agglomerate xs tSq xs.length ((List.range xs.length).map (fun i => [i]))

/-- Mean `x0` of a column's blocks (`np.mean([b[0] for b in ...])`). -/
def meanX0 (c : List TextBlock) : Frac :=
  ⟨(c.map TextBlock.x0).sum, (c.length : Int)⟩

/-- The per-page `ordered_text` list of src/utils.py lines 562-590: sort
blocks by `y0` (`sorted(..., key=lambda b: b[1])`); ward-cluster the `x0`
column at threshold 50; re-sort each column by `y0`; order the columns by
their mean `x0`; flatten the block texts. -/
def reconstructPageTexts (blocks : List TextBlock) : List String :=
  let bd := pySorted (fun a b => decide (a.y0 ≤ b.y0)) blocks
  let xs := bd.map TextBlock.x0
  let cols := wardFlatClusters xs ⟨2500, 1⟩
  let colBlocks := cols.map (fun c =>
    pySorted (fun a b => decide (a.y0 ≤ b.y0))
      (c.map (fun i => bd.getD i default)))
  let ordered := pySorted (fun a b => Frac.le (meanX0 a) (meanX0 b)) colBlocks
  ordered.flatMap (fun c => c.map TextBlock.text)

/-- The two-column page of the claim: a left column at `x0 = 0` with blocks
at `y = 10, 20, 30` carrying `A, B, C`, and a right column at `x0 = 500`
with blocks at `y = 15, 25` carrying `X, Y`. -/
def blocksC6 : List TextBlock :=
  [ ⟨0, 10, 100, 15, "A"⟩
  , ⟨0, 20, 100, 25, "B"⟩
  , ⟨0, 30, 100, 35, "C"⟩
  , ⟨500, 15, 600, 20, "X"⟩
  , ⟨500, 25, 600, 30, "Y"⟩ ]

/-- **C6.** For every permutation of the two-column page's blocks, the
reconstructed page text is `A, B, C, X, Y`: the left column fully first,
each column internally top-to-bottom. -/
theorem C6_two_column_reading_order
    (l : List TextBlock) (h : l.Perm blocksC6) :
    reconstructPageTexts l = ["A", "B", "C", "X", "Y"] := by
  have hall : blocksC6.permutations'.all
      (fun l' => decide (reconstructPageTexts l' = ["A", "B", "C", "X", "Y"]))
        = true := by decide
  have hmem : l ∈ blocksC6.permutations' := List.mem_permutations'.mpr h
  exact of_decide_eq_true (List.all_eq_true.mp hall l hmem)

/-- Witness for C6 at the identity permutation. -/
theorem C6_two_column_reading_order_witness :
    reconstructPageTexts blocksC6 = ["A", "B", "C", "X", "Y"] :=
  C6_two_column_reading_order blocksC6 (List.Perm.refl _)

end TRLReporter
